import Mathlib

/-!
Shallow embedding of the `artifact-plugin-s3` gRPC sidecar (Go sources:
`main.go`, `pkg/s3/config.go`) and proofs about its request pipeline.

External collaborators (the Kubernetes secret store, the in-cluster client
constructors, the S3 driver's storage operations, and the operating system's
file/socket calls) are modelled as oracles supplied in an `Env` record: each
oracle value stands for the answer the collaborator would give during one
request.  The gRPC stream's `Send` is modelled as always succeeding, so the
theorems describe the sequence of messages the handler hands to the transport.
-/

namespace ArtifactPluginS3

/-! ## Configuration blobs and strict YAML parsing

The plugin configuration travels as an opaque YAML text.  We model the text
abstractly: either the empty string, a syntactically malformed text, or a
well-formed top-level mapping of field names to values. -/

/-- A YAML value as far as the configuration schema cares: strings, booleans,
nested mappings, and anything else (numbers, sequences, null). -/
inductive YamlVal
  | str (s : String)
  | bool (b : Bool)
  | obj (fields : List (String × YamlVal))
  | other

/-- The configuration text of a plugin location: the empty string, a
syntactically malformed document, or a top-level YAML mapping. -/
inductive ConfigText
  | empty
  | malformed (msg : String)
  | yaml (fields : List (String × YamlVal))

/-- Model of `wfv1.SecretKeySelector`: a reference to one key of one Kubernetes
secret. -/
structure SecretKeySelector where
  name : String := ""
  key : String := ""
  optional : Option Bool := none

/-- Model of `wfv1.S3Bucket`, restricted to the fields the plugin pipeline reads.
The schema also admits the keys `createBucketIfNotPresent`,
`encryptionOptions` and `caSecret`, which the pipeline never reads; the
parser accepts them (see `applyS3Field`) but they are not stored. -/
structure S3Bucket where
  endpoint : String := ""
  bucket : String := ""
  region : String := ""
  insecure : Option Bool := none
  accessKeySecret : Option SecretKeySelector := none
  secretKeySecret : Option SecretKeySelector := none
  sessionTokenSecret : Option SecretKeySelector := none
  roleARN : String := ""
  useSDKCreds : Bool := false

/-- The top-level field names the strict deserializer accepts for
`wfv1.S3Bucket`. -/
def knownTopLevelKeys : List String :=
  ["endpoint", "bucket", "region", "insecure", "accessKeySecret",
   "secretKeySecret", "sessionTokenSecret", "roleARN", "useSDKCreds",
   "createBucketIfNotPresent", "encryptionOptions", "caSecret"]

/-- Modelled from the spec: strict decoding of one field of a
`SecretKeySelector` mapping; the decoder (`sigs.k8s.io/yaml` in strict mode
against the argo-workflows type) is outside this repository.  Unknown nested
fields are rejected, per strict mode. -/
def applySelectorField (sel : SecretKeySelector) (kv : String × YamlVal) :
    Except String SecretKeySelector :=
  if kv.1 = "name" then
    match kv.2 with
    | .str s => .ok { sel with name := s }
    | _ => .error "cannot unmarshal into field name"
  else if kv.1 = "key" then
    match kv.2 with
    | .str s => .ok { sel with key := s }
    | _ => .error "cannot unmarshal into field key"
  else if kv.1 = "optional" then
    match kv.2 with
    | .bool b => .ok { sel with optional := some b }
    | _ => .error "cannot unmarshal into field optional"
  else .error ("error unmarshaling JSON: unknown field " ++ kv.1)

/-- Strict decoding of a `SecretKeySelector` mapping, field by field. -/
def parseSelectorFields (sel : SecretKeySelector) :
    List (String × YamlVal) → Except String SecretKeySelector
  | [] => .ok sel
  | kv :: rest =>
    match applySelectorField sel kv with
    | .error e => .error e
    | .ok sel2 => parseSelectorFields sel2 rest

/-- A `SecretKeySelector` must be a mapping; a scalar in its place is a
decode error (config test: a plain string for `accessKeySecret` fails). -/
def parseSelector (v : YamlVal) : Except String SecretKeySelector :=
  match v with
  | .obj fields => parseSelectorFields {} fields
  | _ => .error "cannot unmarshal into SecretKeySelector"

/-- Modelled from the spec: strict decoding of one top-level field of the
`wfv1.S3Bucket` schema.  A key outside `knownTopLevelKeys` is a hard error;
a known key with a value of the wrong shape is also an error. -/
def applyS3Field (cfg : S3Bucket) (kv : String × YamlVal) :
    Except String S3Bucket :=
  if kv.1 = "endpoint" then
    match kv.2 with
    | .str s => .ok { cfg with endpoint := s }
    | _ => .error "cannot unmarshal into field endpoint"
  else if kv.1 = "bucket" then
    match kv.2 with
    | .str s => .ok { cfg with bucket := s }
    | _ => .error "cannot unmarshal into field bucket"
  else if kv.1 = "region" then
    match kv.2 with
    | .str s => .ok { cfg with region := s }
    | _ => .error "cannot unmarshal into field region"
  else if kv.1 = "insecure" then
    match kv.2 with
    | .bool b => .ok { cfg with insecure := some b }
    | _ => .error "cannot unmarshal into field insecure"
  else if kv.1 = "accessKeySecret" then
    match parseSelector kv.2 with
    | .error e => .error e
    | .ok sel => .ok { cfg with accessKeySecret := some sel }
  else if kv.1 = "secretKeySecret" then
    match parseSelector kv.2 with
    | .error e => .error e
    | .ok sel => .ok { cfg with secretKeySecret := some sel }
  else if kv.1 = "sessionTokenSecret" then
    match parseSelector kv.2 with
    | .error e => .error e
    | .ok sel => .ok { cfg with sessionTokenSecret := some sel }
  else if kv.1 = "roleARN" then
    match kv.2 with
    | .str s => .ok { cfg with roleARN := s }
    | _ => .error "cannot unmarshal into field roleARN"
  else if kv.1 = "useSDKCreds" then
    match kv.2 with
    | .bool b => .ok { cfg with useSDKCreds := b }
    | _ => .error "cannot unmarshal into field useSDKCreds"
  else if kv.1 = "createBucketIfNotPresent" then .ok cfg
  else if kv.1 = "encryptionOptions" then .ok cfg
  else if kv.1 = "caSecret" then .ok cfg
  else .error ("error unmarshaling JSON: unknown field " ++ kv.1)

/-- Strict decoding of a top-level `S3Bucket` mapping, field by field,
starting from the all-default configuration. -/
def unmarshalFields (cfg : S3Bucket) :
    List (String × YamlVal) → Except String S3Bucket
  | [] => .ok cfg
  | kv :: rest =>
    match applyS3Field cfg kv with
    | .error e => .error e
    | .ok cfg2 => unmarshalFields cfg2 rest

/-- Embedding of `parsePluginConfiguration` (pkg/s3/config.go): strict-decode the blob
into a `wfv1.S3Bucket`, wrapping any decode error.  An empty blob decodes to
the all-default configuration. -/
def parsePluginConfiguration (c : ConfigText) : Except String S3Bucket :=
  match c with
  | .empty => .ok {}
  | .malformed msg => .error ("failed to parse plugin configuration: " ++ msg)
  | .yaml fields =>
    match unmarshalFields {} fields with
    | .error e => .error ("failed to parse plugin configuration: " ++ e)
    | .ok cfg => .ok cfg

/-! ## Secret resolution and driver construction (pkg/s3/config.go) -/

/-- The answer the Kubernetes secret store gives for one `(namespace, name,
key)` reference. -/
inductive SecretResult
  | value (v : String)
  | notFound
  | storeError (msg : String)

/-- The error of a `Read` call: end-of-data, or any other failure. -/
inductive ReadErr
  | eof
  | other (msg : String)
deriving DecidableEq

/-- One answer the driver's byte source gives to a single `Read` call into
the 1 MiB buffer: the bytes read (at most the buffer size) and the call's
error, `none` on plain success. -/
structure ReadResult where
  data : List Nat
  err : Option ReadErr
deriving DecidableEq

/-- The S3 `ArtifactDriver` record as constructed by `getArtifactDriver`;
credential strings start out as Go zero values (empty). -/
structure ArtifactDriver where
  endpoint : String
  region : String
  secure : Bool
  accessKey : String := ""
  secretKey : String := ""
  sessionToken : String := ""
  roleARN : String
  useSDKCreds : Bool
deriving DecidableEq

/-- The `wfv1.Artifact` built by `createArgoArtifactFromConfig`: an S3
location holding the parsed bucket configuration plus the storage key. -/
structure WfArtifact where
  s3Bucket : S3Bucket
  key : String

/-- Oracles for every external collaborator touched during one request:
the in-cluster Kubernetes client constructors, namespace lookup, the secret
store, and the six driver operations. -/
structure Env where
  inClusterConfig : Except String Unit
  newForConfig : Except String Unit
  getNamespace : Except String String
  secretStore : String → String → String → SecretResult
  driverLoad : ArtifactDriver → WfArtifact → String → Option String
  driverSave : ArtifactDriver → String → WfArtifact → Option String
  driverDelete : ArtifactDriver → WfArtifact → Option String
  driverListObjects : ArtifactDriver → WfArtifact → Except String (List String)
  driverIsDirectory : ArtifactDriver → WfArtifact → Except String Bool
  driverOpenStream : ArtifactDriver → WfArtifact → Except String (List ReadResult)

/-- Embedding of `getSecretValue` (pkg/s3/config.go): read the namespace from the service
account, then fetch one key of one secret from the store. -/
def getSecretValue (env : Env) (secretName secretKey : String) :
    Except String String :=
  match env.getNamespace with
  | .error e => .error ("failed to get namespace: " ++ e)
  | .ok ns =>
    match env.secretStore ns secretName secretKey with
    | .value v => .ok v
    | .storeError m => .error ("failed to get secret " ++ secretName ++ ": " ++ m)
    | .notFound =>
      .error ("secret key " ++ secretKey ++ " not found in secret " ++ secretName)

/-- The base driver record built from the parsed configuration before any
secret resolution; `Secure` is `Insecure == nil or not *Insecure`. -/
def baseDriver (pluginConfig : S3Bucket) : ArtifactDriver :=
  { endpoint := pluginConfig.endpoint
    region := pluginConfig.region
    secure := match pluginConfig.insecure with
              | none => true
              | some b => !b
    roleARN := pluginConfig.roleARN
    useSDKCreds := pluginConfig.useSDKCreds }

/-- Session-token step of `getArtifactDriver`: fetched only when the
reference is present; the second component logs each secret-store lookup
performed as a `(name, key)` pair. -/
def resolveSessionToken (env : Env) (cfg : S3Bucket) (driver : ArtifactDriver)
    (lookups : List (String × String)) :
    Except String ArtifactDriver × List (String × String) :=
  match cfg.sessionTokenSecret with
  | none => (.ok driver, lookups)
  | some sel =>
    match getSecretValue env sel.name sel.key with
    | .error e =>
      (.error ("failed to resolve session token: " ++ e), lookups ++ [(sel.name, sel.key)])
    | .ok v =>
      (.ok { driver with sessionToken := v }, lookups ++ [(sel.name, sel.key)])

/-- Secret-key step of `getArtifactDriver`, then the session-token step. -/
def resolveSecretKey (env : Env) (cfg : S3Bucket) (driver : ArtifactDriver)
    (lookups : List (String × String)) :
    Except String ArtifactDriver × List (String × String) :=
  match cfg.secretKeySecret with
  | none => resolveSessionToken env cfg driver lookups
  | some sel =>
    match getSecretValue env sel.name sel.key with
    | .error e =>
      (.error ("failed to resolve secret key: " ++ e), lookups ++ [(sel.name, sel.key)])
    | .ok v =>
      resolveSessionToken env cfg { driver with secretKey := v }
        (lookups ++ [(sel.name, sel.key)])

/-- Access-key step of `getArtifactDriver`, then the remaining steps. -/
def resolveAccessKey (env : Env) (cfg : S3Bucket) (driver : ArtifactDriver)
    (lookups : List (String × String)) :
    Except String ArtifactDriver × List (String × String) :=
  match cfg.accessKeySecret with
  | none => resolveSecretKey env cfg driver lookups
  | some sel =>
    match getSecretValue env sel.name sel.key with
    | .error e =>
      (.error ("failed to resolve access key: " ++ e), lookups ++ [(sel.name, sel.key)])
    | .ok v =>
      resolveSecretKey env cfg { driver with accessKey := v }
        (lookups ++ [(sel.name, sel.key)])

/-- Embedding of `getArtifactDriver` (pkg/s3/config.go): build the base driver; with
`useSDKCreds` return it untouched, otherwise build the Kubernetes client and
resolve each secret reference that is present.  The second component is the
list of secret-store lookups performed. -/
def getArtifactDriver (env : Env) (pluginConfig : S3Bucket) :
    Except String ArtifactDriver × List (String × String) :=
  let driver := baseDriver pluginConfig
  if pluginConfig.useSDKCreds then (.ok driver, [])
  else
    match env.inClusterConfig with
    | .error e => (.error ("failed to get in-cluster config: " ++ e), [])
    | .ok _ =>
      match env.newForConfig with
      | .error e => (.error ("failed to create kubernetes client: " ++ e), [])
      | .ok _ => resolveAccessKey env pluginConfig driver []

/-- Embedding of `createArgoArtifactFromConfig` (pkg/s3/config.go). -/
def createArgoArtifactFromConfig (pluginConfig : S3Bucket) (key : String) :
    WfArtifact :=
  { s3Bucket := pluginConfig, key := key }

/-- Embedding of `DriverAndArtifactFromConfig` (pkg/s3/config.go): parse the blob, build
the Argo artifact, and resolve the driver. -/
def DriverAndArtifactFromConfig (env : Env) (configText : ConfigText)
    (key : String) : Except String (ArtifactDriver × WfArtifact) :=
  match parsePluginConfiguration configText with
  | .error e => .error e
  | .ok pluginConfig =>
    match (getArtifactDriver env pluginConfig).1 with
    | .error e => .error e
    | .ok driver => .ok (driver, createArgoArtifactFromConfig pluginConfig key)

/-! ## Request validation and the gRPC handlers (main.go) -/

/-- The gRPC status codes the server uses. -/
inductive Code
  | invalidArgument
  | internal
deriving DecidableEq

/-- A gRPC status error (`status.Error(code, msg)`). -/
structure StatusError where
  code : Code
  message : String
deriving DecidableEq

/-- The `Plugin` location of an artifact: the opaque configuration text plus the
storage key. -/
structure PluginLocation where
  configuration : ConfigText
  key : String

/-- The wire `Artifact`, restricted to the field the pipeline reads; a `none`
plugin envelope models a nil `Plugin` pointer.  (The proto message carries
further fields — name, path, and so on — which the server never reads.) -/
structure Artifact where
  plugin : Option PluginLocation := none

/-- Embedding of `validatePluginArtifact` (main.go): nil artifact, nil plugin envelope, or
empty configuration text each yield an `InvalidArgument` status error. -/
def validatePluginArtifact (a : Option Artifact) : Option StatusError :=
  match a with
  | none => some { code := .invalidArgument, message := "artifact is required" }
  | some art =>
    match art.plugin with
    | none =>
      some { code := .invalidArgument, message := "plugin artifact location is required" }
    | some pl =>
      match pl.configuration with
      | .empty =>
        some { code := .invalidArgument, message := "plugin configuration is required" }
      | _ => none

/-- Embedding of `getDriver` (main.go): validate, then resolve configuration and build the
driver; resolution failures are wrapped as `Internal` status errors.  The two
final arms are unreachable because validation already guarantees the artifact
and its plugin envelope are present. -/
def getDriver (env : Env) (a : Option Artifact) :
    Except StatusError (ArtifactDriver × WfArtifact) :=
  match validatePluginArtifact a with
  | some e => .error e
  | none =>
    match a with
    | some art =>
      match art.plugin with
      | some pl =>
        match DriverAndArtifactFromConfig env pl.configuration pl.key with
        | .error msg => .error { code := .internal, message := msg }
        | .ok res => .ok res
      | none =>
        .error { code := .invalidArgument, message := "plugin artifact location is required" }
    | none => .error { code := .invalidArgument, message := "artifact is required" }

structure LoadArtifactRequest where
  inputArtifact : Option Artifact
  path : String

structure LoadArtifactResponse where
  success : Bool := false
  error : String := ""
deriving DecidableEq

structure SaveArtifactRequest where
  outputArtifact : Option Artifact
  path : String

structure SaveArtifactResponse where
  success : Bool := false
  error : String := ""
deriving DecidableEq

structure DeleteArtifactRequest where
  artifact : Option Artifact

structure DeleteArtifactResponse where
  success : Bool := false
  error : String := ""
deriving DecidableEq

structure ListObjectsRequest where
  artifact : Option Artifact

structure ListObjectsResponse where
  objects : List String := []
  error : String := ""
deriving DecidableEq

structure IsDirectoryRequest where
  artifact : Option Artifact

structure IsDirectoryResponse where
  isDirectory : Bool := false
  error : String := ""
deriving DecidableEq

/-- A unary handler's outcome: `.ok resp` is `(resp, nil)` in Go, while
`.error e` is `(nil, err)` — a transport-level status error. -/
abbrev HandlerResult (ρ : Type) := Except StatusError ρ

/-- Embedding of `artifactServer.Load` (main.go). -/
def serverLoad (env : Env) (req : LoadArtifactRequest) :
    HandlerResult LoadArtifactResponse :=
  match req.inputArtifact with
  | none => .ok { success := false, error := "input artifact is required" }
  | some _ =>
    match getDriver env req.inputArtifact with
    | .error e => .ok { success := false, error := e.message }
    | .ok (driver, argoArtifact) =>
      match env.driverLoad driver argoArtifact req.path with
      | some e => .ok { success := false, error := e }
      | none => .ok { success := true }

/-- Embedding of `artifactServer.Save` (main.go). -/
def serverSave (env : Env) (req : SaveArtifactRequest) :
    HandlerResult SaveArtifactResponse :=
  match req.outputArtifact with
  | none => .ok { success := false, error := "output artifact is required" }
  | some _ =>
    match getDriver env req.outputArtifact with
    | .error e => .ok { success := false, error := e.message }
    | .ok (driver, argoArtifact) =>
      match env.driverSave driver req.path argoArtifact with
      | some e => .ok { success := false, error := e }
      | none => .ok { success := true }

/-- Embedding of `artifactServer.Delete` (main.go). -/
def serverDelete (env : Env) (req : DeleteArtifactRequest) :
    HandlerResult DeleteArtifactResponse :=
  match getDriver env req.artifact with
  | .error e => .ok { success := false, error := e.message }
  | .ok (driver, argoArtifact) =>
    match env.driverDelete driver argoArtifact with
    | some e => .ok { success := false, error := e }
    | none => .ok { success := true }

/-- Embedding of `artifactServer.ListObjects` (main.go). -/
def serverListObjects (env : Env) (req : ListObjectsRequest) :
    HandlerResult ListObjectsResponse :=
  match getDriver env req.artifact with
  | .error e => .ok { error := e.message }
  | .ok (driver, argoArtifact) =>
    match env.driverListObjects driver argoArtifact with
    | .error e => .ok { error := e }
    | .ok objects => .ok { objects := objects }

/-- Embedding of `artifactServer.IsDirectory` (main.go). -/
def serverIsDirectory (env : Env) (req : IsDirectoryRequest) :
    HandlerResult IsDirectoryResponse :=
  match getDriver env req.artifact with
  | .error e => .ok { error := e.message }
  | .ok (driver, argoArtifact) =>
    match env.driverIsDirectory driver argoArtifact with
    | .error e => .ok { error := e }
    | .ok isDir => .ok { isDirectory := isDir }

/-! ## Streaming encoder (main.go, OpenStream) -/

structure OpenStreamRequest where
  artifact : Option Artifact

/-- One wire message of the stream: a data chunk with the end flag. -/
structure OpenStreamResponse where
  data : List Nat
  isEnd : Bool
deriving DecidableEq

/-- The chunk messages the read loop sends: for each `Read` answer, send the
bytes (when more than zero were read) as a non-terminal message, and break
out of the loop on any error.  `trace` is the sequence of answers the byte
source gives to successive `Read` calls; answers past the first erroring one
are never requested, and a trace is assumed to end in an error (the `[]` case
is never reached on such traces). -/
def streamChunks : List ReadResult → List OpenStreamResponse
  | [] => []
  | r :: rest =>
    let sent := if 0 < r.data.length then [{ data := r.data, isEnd := false }] else []
    match r.err with
    | some _ => sent
    | none => sent ++ streamChunks rest

/-- The terminal message sent after the read loop ends. -/
def endMarker : OpenStreamResponse := { data := [], isEnd := true }

/-- All messages `OpenStream` sends for one byte source: the loop's chunks,
then the end marker (sent after the loop breaks, whatever the error was). -/
def openStreamSends (trace : List ReadResult) : List OpenStreamResponse :=
  streamChunks trace ++ [endMarker]

/-- Embedding of `artifactServer.OpenStream` (main.go): resolve the driver (propagating
its status error verbatim), open the byte source (failures become `Internal`
status errors), then stream.  Returns the messages handed to the transport
and the handler's returned status error. -/
def serverOpenStream (env : Env) (req : OpenStreamRequest) :
    List OpenStreamResponse × Option StatusError :=
  match getDriver env req.artifact with
  | .error e => ([], some e)
  | .ok (driver, argoArtifact) =>
    match env.driverOpenStream driver argoArtifact with
    | .error msg => ([], some { code := .internal, message := msg })
    | .ok trace => (openStreamSends trace, none)

/-! ## Server startup (main.go, startServer) -/

/-- Outcome of `os.Remove` on the socket path: removed, file did not exist
(`os.IsNotExist`), or some other failure. -/
inductive RemoveResult
  | removed
  | notExist
  | failed (msg : String)
deriving DecidableEq

/-- The externally visible steps `startServer` performs, in order. -/
inductive StartAction
  | removeSocket
  | listenSocket
  | registerService
deriving DecidableEq

/-- Oracles for the operating-system calls `startServer` makes. -/
structure StartEnv where
  remove : RemoveResult
  listen : Except String Nat

/-- Embedding of `startServer` (main.go): remove any stale socket file (absence is not an
error, any other removal failure aborts), create the Unix listener, then
create the gRPC server and register the service.  Returns the listener and
the trace of steps performed. -/
def startServer (env : StartEnv) : Except String Nat × List StartAction :=
  match env.remove with
  | .failed e => (.error e, [.removeSocket])
  | _ =>
    match env.listen with
    | .error e => (.error e, [.removeSocket, .listenSocket])
    | .ok l => (.ok l, [.removeSocket, .listenSocket, .registerService])

/-! ## Helper definitions used by the theorems -/

/-- The non-terminal (chunk) messages of a sent sequence. -/
def nonTerminalMsgs (msgs : List OpenStreamResponse) : List OpenStreamResponse :=
  msgs.filter (fun m => !m.isEnd)

/-- The terminal messages of a sent sequence. -/
def terminalMsgs (msgs : List OpenStreamResponse) : List OpenStreamResponse :=
  msgs.filter (fun m => m.isEnd)

/-- Concatenated payloads of a message sequence. -/
def payloadBytes (msgs : List OpenStreamResponse) : List Nat :=
  (msgs.map (fun m => m.data)).flatten

/-- Concatenated bytes a read trace yields. -/
def sourceBytes (trace : List ReadResult) : List Nat :=
  (trace.map (fun r => r.data)).flatten

/-! ## Concrete demonstration inputs -/

/-- A demonstration oracle environment in which every collaborator succeeds:
the cluster client builds, every secret resolves, and every driver operation
succeeds; the byte source reports end-of-data immediately. -/
def demoEnv : Env :=
  { inClusterConfig := .ok ()
    newForConfig := .ok ()
    getNamespace := .ok "argo"
    secretStore := fun _ n _ => .value ("val-" ++ n)
    driverLoad := fun _ _ _ => none
    driverSave := fun _ _ _ => none
    driverDelete := fun _ _ => none
    driverListObjects := fun _ _ => .ok []
    driverIsDirectory := fun _ _ => .ok false
    driverOpenStream := fun _ _ => .ok [{ data := [], err := some .eof }] }

/-- Like `demoEnv`, but the byte source's first read fails with an error that
is not end-of-data. -/
def demoReadErrorEnv : Env :=
  { demoEnv with driverOpenStream :=
      fun _ _ => .ok [{ data := [], err := some (.other "connection reset by peer") }] }

/-- An artifact whose configuration asks for ambient SDK credentials. -/
def sdkCredsArtifact : Artifact :=
  { plugin := some { configuration := .yaml [("useSDKCreds", .bool true)], key := "k" } }

/-- An artifact that carries no plugin-location envelope. -/
def noPluginArtifact : Artifact := { plugin := none }

/-- The configuration text of the spec's example scenario: bucket, endpoint,
insecure, `useSDKCreds: false`, and no credential references. -/
def c4Config : ConfigText :=
  .yaml [("bucket", .str "b"), ("endpoint", .str "e:9000"),
         ("insecure", .bool true), ("useSDKCreds", .bool false)]

/-- The configuration the spec's example scenario parses to. -/
def c4Bucket : S3Bucket :=
  { bucket := "b", endpoint := "e:9000", insecure := some true }

/-! ## Lemmas about the streaming encoder -/

theorem streamChunks_nil : streamChunks [] = [] := rfl

theorem streamChunks_cons_some (d : List Nat) (e : ReadErr)
    (rest : List ReadResult) :
    streamChunks ({ data := d, err := some e } :: rest)
      = if 0 < d.length then [{ data := d, isEnd := false }] else [] := rfl

theorem streamChunks_cons_none (d : List Nat) (rest : List ReadResult) :
    streamChunks ({ data := d, err := none } :: rest)
      = (if 0 < d.length then [{ data := d, isEnd := false }] else [])
        ++ streamChunks rest := rfl

theorem streamChunks_append_ok (xs ys : List ReadResult)
    (h : ∀ r ∈ xs, r.err = none) :
    streamChunks (xs ++ ys) = streamChunks xs ++ streamChunks ys := by
  induction xs with
  | nil => simp [streamChunks_nil]
  | cons r rest ih =>
    obtain ⟨d, e⟩ := r
    have he : e = none := by
      have := h ⟨d, e⟩ (List.mem_cons_self _ _)
      simpa using this
    subst he
    rw [List.cons_append, streamChunks_cons_none, streamChunks_cons_none,
      ih (fun r hr => h r (List.mem_cons_of_mem _ hr)), List.append_assoc]

theorem streamChunks_isEnd (xs : List ReadResult) :
    ∀ m ∈ streamChunks xs, m.isEnd = false := by
  induction xs with
  | nil => simp [streamChunks_nil]
  | cons r rest ih =>
    obtain ⟨d, e⟩ := r
    intro m hm
    cases e with
    | none =>
      rw [streamChunks_cons_none] at hm
      rcases List.mem_append.1 hm with h1 | h2
      · split at h1 <;> simp_all
      · exact ih m h2
    | some e2 =>
      rw [streamChunks_cons_some] at hm
      split at hm <;> simp_all

theorem streamChunks_shape (xs : List ReadResult)
    (hlen : ∀ r ∈ xs, r.data.length ≤ 1024 * 1024) :
    ∀ m ∈ streamChunks xs,
      m.data ≠ [] ∧ m.data.length ≤ 1024 * 1024 ∧ m.isEnd = false := by
  induction xs with
  | nil => simp [streamChunks_nil]
  | cons r rest ih =>
    obtain ⟨d, e⟩ := r
    have hd : d.length ≤ 1024 * 1024 := by
      have := hlen ⟨d, e⟩ (List.mem_cons_self _ _)
      simpa using this
    intro m hm
    cases e with
    | none =>
      rw [streamChunks_cons_none] at hm
      rcases List.mem_append.1 hm with h1 | h2
      · split at h1
        case isTrue hpos =>
          have hm2 : m = { data := d, isEnd := false } := by simpa using h1
          subst hm2
          exact ⟨List.length_pos.1 hpos, hd, rfl⟩
        case isFalse => simp at h1
      · exact ih (fun r hr => hlen r (List.mem_cons_of_mem _ hr)) m h2
    | some e2 =>
      rw [streamChunks_cons_some] at hm
      split at hm
      case isTrue hpos =>
        have hm2 : m = { data := d, isEnd := false } := by simpa using hm
        subst hm2
        exact ⟨List.length_pos.1 hpos, hd, rfl⟩
      case isFalse => simp at hm

theorem payloadBytes_append (a b : List OpenStreamResponse) :
    payloadBytes (a ++ b) = payloadBytes a ++ payloadBytes b := by
  simp [payloadBytes]

theorem sourceBytes_append (a b : List ReadResult) :
    sourceBytes (a ++ b) = sourceBytes a ++ sourceBytes b := by
  simp [sourceBytes]

theorem payload_streamChunks_ok (xs : List ReadResult)
    (h : ∀ r ∈ xs, r.err = none) :
    payloadBytes (streamChunks xs) = sourceBytes xs := by
  induction xs with
  | nil => rfl
  | cons r rest ih =>
    obtain ⟨d, e⟩ := r
    have he : e = none := by
      have := h ⟨d, e⟩ (List.mem_cons_self _ _)
      simpa using this
    subst he
    rw [streamChunks_cons_none, payloadBytes_append,
      ih (fun r hr => h r (List.mem_cons_of_mem _ hr))]
    have hsrc : sourceBytes ({ data := d, err := none } :: rest)
        = d ++ sourceBytes rest := by simp [sourceBytes]
    rw [hsrc]
    split
    case isTrue hpos => simp [payloadBytes]
    case isFalse hpos =>
      have hd : d = [] := by
        have := Nat.eq_zero_of_not_pos hpos
        exact List.length_eq_zero.1 this
      subst hd
      simp [payloadBytes]

theorem payload_streamChunks_last (d : List Nat) (e : ReadErr) :
    payloadBytes (streamChunks [{ data := d, err := some e }]) = d := by
  rw [streamChunks_cons_some]
  split
  case isTrue hpos => simp [payloadBytes]
  case isFalse hpos =>
    have hd : d = [] := by
      have := Nat.eq_zero_of_not_pos hpos
      exact List.length_eq_zero.1 this
    subst hd
    simp [payloadBytes]

theorem nonTerminal_openStreamSends (trace : List ReadResult) :
    nonTerminalMsgs (openStreamSends trace) = streamChunks trace := by
  unfold nonTerminalMsgs openStreamSends
  rw [List.filter_append]
  have h1 : (streamChunks trace).filter (fun m => !m.isEnd) = streamChunks trace :=
    List.filter_eq_self.2 (fun m hm => by simp [streamChunks_isEnd trace m hm])
  have h2 : [endMarker].filter (fun m => !m.isEnd) = [] := rfl
  rw [h1, h2, List.append_nil]

theorem terminal_openStreamSends (trace : List ReadResult) :
    terminalMsgs (openStreamSends trace) = [endMarker] := by
  unfold terminalMsgs openStreamSends
  rw [List.filter_append]
  have h1 : (streamChunks trace).filter (fun m => m.isEnd) = [] :=
    List.filter_eq_nil_iff.2 (fun m hm => by simp [streamChunks_isEnd trace m hm])
  have h2 : [endMarker].filter (fun m => m.isEnd) = [endMarker] := rfl
  rw [h1, h2, List.nil_append]

/-! ## Claims about the streaming encoder -/

/-- C3 (confirmed): for a byte source of `N` bytes delivered without read
errors (every read before the final end-of-data succeeds, each read fits the
1 MiB buffer), the messages `OpenStream` sends satisfy: the concatenation of
the non-terminal payloads is exactly the source's bytes; every non-terminal
message has a non-empty payload of at most 1 MiB and `end = false`; exactly
one terminal message is sent, it has an empty payload and `end = true`, and
it is the last message. -/
theorem c3_stream_protocol (body : List ReadResult) (last : ReadResult)
    (hbody : ∀ r ∈ body, r.err = none)
    (hlen : ∀ r ∈ body ++ [last], r.data.length ≤ 1024 * 1024)
    (hlast : last.err = some ReadErr.eof) :
    payloadBytes (nonTerminalMsgs (openStreamSends (body ++ [last])))
        = sourceBytes (body ++ [last])
    ∧ (∀ m ∈ nonTerminalMsgs (openStreamSends (body ++ [last])),
        m.data ≠ [] ∧ m.data.length ≤ 1024 * 1024 ∧ m.isEnd = false)
    ∧ terminalMsgs (openStreamSends (body ++ [last])) = [endMarker]
    ∧ endMarker.data = [] ∧ endMarker.isEnd = true
    ∧ (openStreamSends (body ++ [last])).getLast? = some endMarker := by
  obtain ⟨d, e⟩ := last
  have he : e = some ReadErr.eof := by simpa using hlast
  subst he
  refine ⟨?_, ?_, terminal_openStreamSends _, rfl, rfl, ?_⟩
  · rw [nonTerminal_openStreamSends,
      streamChunks_append_ok body [{ data := d, err := some ReadErr.eof }] hbody,
      payloadBytes_append, payload_streamChunks_ok body hbody,
      payload_streamChunks_last, sourceBytes_append]
    simp [sourceBytes]
  · rw [nonTerminal_openStreamSends]
    exact streamChunks_shape _ hlen
  · unfold openStreamSends
    exact List.getLast?_concat _

/-- C10 (confirmed): when a read returns `n > 0` bytes together with an
error (end-of-data included), those bytes are still sent as a non-terminal
chunk message before the loop terminates: the loop's sends are the preceding
chunks followed by exactly that chunk, and the handler's full output follows
it only with the end marker. -/
theorem c10_partial_final_read (body : List ReadResult) (d : List Nat)
    (e : ReadErr) (hbody : ∀ r ∈ body, r.err = none) (hd : d ≠ []) :
    streamChunks (body ++ [{ data := d, err := some e }])
      = streamChunks body ++ [{ data := d, isEnd := false }]
    ∧ openStreamSends (body ++ [{ data := d, err := some e }])
      = streamChunks body ++ [{ data := d, isEnd := false }, endMarker] := by
  have hpos : 0 < d.length := List.length_pos.2 hd
  have hsingle : streamChunks [{ data := d, err := some e }]
      = [{ data := d, isEnd := false }] := by
    rw [streamChunks_cons_some, if_pos hpos]
  have hloop : streamChunks (body ++ [{ data := d, err := some e }])
      = streamChunks body ++ [{ data := d, isEnd := false }] := by
    rw [streamChunks_append_ok body _ hbody, hsingle]
  refine ⟨hloop, ?_⟩
  unfold openStreamSends
  rw [hloop, List.append_assoc]
  rfl

/-- C2 (code bug): the read loop breaks on every error without inspecting
it, so even a read error that is not end-of-data falls through to the code
that sends the terminal message: the handler sends `endMarker` and returns
no transport-level error, exactly as for a clean end-of-data.  Evaluated
here on a byte source whose first read fails with a connection reset. -/
theorem c2_read_error_still_sends_end_marker :
    serverOpenStream demoReadErrorEnv { artifact := some sdkCredsArtifact }
      = ([endMarker], none) := rfl

/-- Witness for C3 at a concrete two-read source: three bytes, then a final
read of one byte together with end-of-data. -/
theorem c3_stream_protocol_witness :
    payloadBytes (nonTerminalMsgs (openStreamSends
        ([{ data := [1, 2, 3], err := none }] ++ [{ data := [4], err := some ReadErr.eof }])))
        = sourceBytes
            ([{ data := [1, 2, 3], err := none }] ++ [{ data := [4], err := some ReadErr.eof }])
    ∧ (∀ m ∈ nonTerminalMsgs (openStreamSends
          ([{ data := [1, 2, 3], err := none }] ++ [{ data := [4], err := some ReadErr.eof }])),
        m.data ≠ [] ∧ m.data.length ≤ 1024 * 1024 ∧ m.isEnd = false)
    ∧ terminalMsgs (openStreamSends
          ([{ data := [1, 2, 3], err := none }] ++ [{ data := [4], err := some ReadErr.eof }]))
        = [endMarker]
    ∧ endMarker.data = [] ∧ endMarker.isEnd = true
    ∧ (openStreamSends
          ([{ data := [1, 2, 3], err := none }] ++ [{ data := [4], err := some ReadErr.eof }])).getLast?
        = some endMarker :=
  c3_stream_protocol [{ data := [1, 2, 3], err := none }]
    { data := [4], err := some ReadErr.eof } (by decide) (by decide) rfl

/-- Witness for C10 at a concrete source whose only read returns one byte
together with a non-end-of-data error. -/
theorem c10_partial_final_read_witness :
    streamChunks ([] ++ [{ data := [7], err := some (ReadErr.other "boom") }])
      = streamChunks [] ++ [{ data := [7], isEnd := false }]
    ∧ openStreamSends ([] ++ [{ data := [7], err := some (ReadErr.other "boom") }])
      = streamChunks [] ++ [{ data := [7], isEnd := false }, endMarker] :=
  c10_partial_final_read [] [7] (ReadErr.other "boom") (by decide) (by decide)

/-! ## Lemmas about secret resolution -/

theorem resolveSessionToken_secure (env : Env) (cfg : S3Bucket)
    (drv : ArtifactDriver) (lg : List (String × String)) (d : ArtifactDriver)
    (l : List (String × String))
    (h : resolveSessionToken env cfg drv lg = (.ok d, l)) :
    d.secure = drv.secure := by
  unfold resolveSessionToken at h
  split at h
  · simp only [Prod.mk.injEq, Except.ok.injEq] at h
    obtain ⟨h1, -⟩ := h
    subst h1
    rfl
  · split at h
    · simp at h
    · simp only [Prod.mk.injEq, Except.ok.injEq] at h
      obtain ⟨h1, -⟩ := h
      subst h1
      rfl

theorem resolveSecretKey_secure (env : Env) (cfg : S3Bucket)
    (drv : ArtifactDriver) (lg : List (String × String)) (d : ArtifactDriver)
    (l : List (String × String))
    (h : resolveSecretKey env cfg drv lg = (.ok d, l)) :
    d.secure = drv.secure := by
  unfold resolveSecretKey at h
  split at h
  · exact resolveSessionToken_secure env cfg drv lg d l h
  · split at h
    · simp at h
    · have h2 := resolveSessionToken_secure env cfg _ _ d l h
      exact h2

theorem resolveAccessKey_secure (env : Env) (cfg : S3Bucket)
    (drv : ArtifactDriver) (lg : List (String × String)) (d : ArtifactDriver)
    (l : List (String × String))
    (h : resolveAccessKey env cfg drv lg = (.ok d, l)) :
    d.secure = drv.secure := by
  unfold resolveAccessKey at h
  split at h
  · exact resolveSecretKey_secure env cfg drv lg d l h
  · split at h
    · simp at h
    · have h2 := resolveSecretKey_secure env cfg _ _ d l h
      exact h2

theorem getArtifactDriver_secure (env : Env) (cfg : S3Bucket)
    (d : ArtifactDriver) (l : List (String × String))
    (h : getArtifactDriver env cfg = (.ok d, l)) :
    d.secure = (baseDriver cfg).secure := by
  unfold getArtifactDriver at h
  split at h
  · simp only [Prod.mk.injEq, Except.ok.injEq] at h
    obtain ⟨h1, -⟩ := h
    subst h1
    rfl
  · split at h
    · simp at h
    · split at h
      · simp at h
      · exact resolveAccessKey_secure env cfg _ _ d l h

/-! ## Claims about configuration resolution -/

/-- C5 (confirmed): with the ambient-credentials flag set, resolution
performs no secret-store lookups (the lookup log is empty) and the returned
driver's three credential strings are all empty. -/
theorem c5_sdk_creds_no_lookups (env : Env) (cfg : S3Bucket)
    (h : cfg.useSDKCreds = true) :
    getArtifactDriver env cfg = (.ok (baseDriver cfg), [])
    ∧ (baseDriver cfg).accessKey = "" ∧ (baseDriver cfg).secretKey = ""
    ∧ (baseDriver cfg).sessionToken = "" := by
  refine ⟨?_, rfl, rfl, rfl⟩
  simp [getArtifactDriver, h]

/-- Witness for C5 at the minimal SDK-credentials configuration. -/
theorem c5_sdk_creds_no_lookups_witness :
    getArtifactDriver demoEnv { useSDKCreds := true }
        = (.ok (baseDriver { useSDKCreds := true }), [])
    ∧ (baseDriver { useSDKCreds := true }).accessKey = ""
    ∧ (baseDriver { useSDKCreds := true }).secretKey = ""
    ∧ (baseDriver { useSDKCreds := true }).sessionToken = "" :=
  c5_sdk_creds_no_lookups demoEnv { useSDKCreds := true } rfl

/-- C6 (confirmed): whenever resolution returns a driver, its secure flag is
the negation of the wire `insecure` flag when that flag is set, and `true`
when it is unset. -/
theorem c6_secure_flag (env : Env) (cfg : S3Bucket) (d : ArtifactDriver)
    (l : List (String × String)) (h : getArtifactDriver env cfg = (.ok d, l)) :
    (cfg.insecure = none → d.secure = true)
    ∧ ∀ b, cfg.insecure = some b → d.secure = !b := by
  have hs := getArtifactDriver_secure env cfg d l h
  constructor
  · intro hn
    rw [hs]
    simp [baseDriver, hn]
  · intro b hb
    rw [hs]
    simp [baseDriver, hb]

/-- Witness for C6 at a configuration with `insecure: true`. -/
theorem c6_secure_flag_witness :
    (({ insecure := some true } : S3Bucket).insecure = none
        → (baseDriver { insecure := some true }).secure = true)
    ∧ ∀ b, ({ insecure := some true } : S3Bucket).insecure = some b
        → (baseDriver { insecure := some true }).secure = !b :=
  c6_secure_flag demoEnv { insecure := some true }
    (baseDriver { insecure := some true }) [] (by rfl)

/-- C4 (corrected): a configuration with `useSDKCreds: false` and no
access-key or secret-key references does NOT fail; the absent references are
skipped, the driver is built with empty credential strings and an empty
lookup log, and a `Load` request over such a configuration reflects only the
driver call's outcome — succeeding when the driver call succeeds. -/
theorem c4_amended (env : Env) (cfg : S3Bucket) (c : ConfigText)
    (key path : String)
    (h1 : cfg.useSDKCreds = false) (h2 : cfg.accessKeySecret = none)
    (h3 : cfg.secretKeySecret = none) (h4 : cfg.sessionTokenSecret = none)
    (h5 : env.inClusterConfig = .ok ()) (h6 : env.newForConfig = .ok ())
    (hc : parsePluginConfiguration c = .ok cfg) (hne : c ≠ .empty)
    (hload : env.driverLoad (baseDriver cfg)
        (createArgoArtifactFromConfig cfg key) path = none) :
    getArtifactDriver env cfg = (.ok (baseDriver cfg), [])
    ∧ (baseDriver cfg).accessKey = "" ∧ (baseDriver cfg).secretKey = ""
    ∧ serverLoad env
        { inputArtifact := some { plugin := some { configuration := c, key := key } },
          path := path }
        = .ok { success := true, error := "" } := by
  have hdrv : getArtifactDriver env cfg = (.ok (baseDriver cfg), []) := by
    simp [getArtifactDriver, h1, h5, h6, resolveAccessKey, h2,
      resolveSecretKey, h3, resolveSessionToken, h4]
  refine ⟨hdrv, rfl, rfl, ?_⟩
  have hval : validatePluginArtifact
      (some { plugin := some { configuration := c, key := key } }) = none := by
    cases c with
    | empty => exact absurd rfl hne
    | malformed m => rfl
    | yaml fs => rfl
  simp [serverLoad, getDriver, hval, DriverAndArtifactFromConfig, hc, hdrv, hload]

/-- Witness for the amended C4 at the spec's example configuration. -/
theorem c4_amended_witness :
    getArtifactDriver demoEnv c4Bucket = (.ok (baseDriver c4Bucket), [])
    ∧ (baseDriver c4Bucket).accessKey = "" ∧ (baseDriver c4Bucket).secretKey = ""
    ∧ serverLoad demoEnv
        { inputArtifact := some { plugin := some { configuration := c4Config, key := "k" } },
          path := "/tmp/out" }
        = .ok { success := true, error := "" } :=
  c4_amended demoEnv c4Bucket c4Config "k" "/tmp/out" rfl rfl rfl rfl rfl rfl
    (by rfl) (by simp [c4Config]) rfl

/-- Counterexample for C4 as stated: at the spec's own example scenario
(`{bucket: "b", endpoint: "e:9000", insecure: true, useSDKCreds: false}`
with no credential references) and a healthy cluster and driver, `Load`
answers `success = true` with an empty error string — not the claimed
`success = false` with a missing-access-key resolution error. -/
theorem c4_counterexample :
    serverLoad demoEnv
      { inputArtifact := some { plugin := some { configuration := c4Config, key := "k" } },
        path := "/tmp/out" }
      = .ok { success := true, error := "" } := rfl

/-! ## Claims about the unary handlers -/

/-- C1 (corrected): on every unary operation, a getDriver failure — the
validation failures (missing plugin envelope, empty configuration blob)
included — is answered with a structured failure response carrying the error
message and a nil transport error, exactly like post-validation failures;
no unary handler converts it into a transport-level error. -/
theorem c1_amended (env : Env) (a : Artifact) (path : String) (e : StatusError)
    (h : getDriver env (some a) = .error e) :
    serverLoad env { inputArtifact := some a, path := path }
        = .ok { success := false, error := e.message }
    ∧ serverSave env { outputArtifact := some a, path := path }
        = .ok { success := false, error := e.message }
    ∧ serverDelete env { artifact := some a }
        = .ok { success := false, error := e.message }
    ∧ serverListObjects env { artifact := some a }
        = .ok { objects := [], error := e.message }
    ∧ serverIsDirectory env { artifact := some a }
        = .ok { isDirectory := false, error := e.message } := by
  refine ⟨?_, ?_, ?_, ?_, ?_⟩ <;>
    simp [serverLoad, serverSave, serverDelete, serverListObjects,
      serverIsDirectory, h]

/-- Witness for the amended C1 on an artifact lacking the plugin envelope. -/
theorem c1_amended_witness :
    serverLoad demoEnv { inputArtifact := some noPluginArtifact, path := "p" }
        = .ok { success := false,
                error := ({ code := Code.invalidArgument,
                            message := "plugin artifact location is required" } : StatusError).message }
    ∧ serverSave demoEnv { outputArtifact := some noPluginArtifact, path := "p" }
        = .ok { success := false,
                error := ({ code := Code.invalidArgument,
                            message := "plugin artifact location is required" } : StatusError).message }
    ∧ serverDelete demoEnv { artifact := some noPluginArtifact }
        = .ok { success := false,
                error := ({ code := Code.invalidArgument,
                            message := "plugin artifact location is required" } : StatusError).message }
    ∧ serverListObjects demoEnv { artifact := some noPluginArtifact }
        = .ok { objects := [],
                error := ({ code := Code.invalidArgument,
                            message := "plugin artifact location is required" } : StatusError).message }
    ∧ serverIsDirectory demoEnv { artifact := some noPluginArtifact }
        = .ok { isDirectory := false,
                error := ({ code := Code.invalidArgument,
                            message := "plugin artifact location is required" } : StatusError).message } :=
  c1_amended demoEnv noPluginArtifact "p"
    { code := Code.invalidArgument, message := "plugin artifact location is required" }
    (by rfl)

/-- Counterexample for C1 as stated: `ListObjects` on an artifact that is
present but carries no plugin-location envelope answers with a structured
response (error string filled in) and a nil transport error — not with a
transport-level `InvalidArgument` error. -/
theorem c1_counterexample :
    serverListObjects demoEnv { artifact := some noPluginArtifact }
      = .ok { objects := [], error := "plugin artifact location is required" } := rfl

/-! ## Claims about OpenStream failure handling -/

theorem validate_code_invalidArgument (a : Option Artifact) (e : StatusError)
    (h : validatePluginArtifact a = some e) : e.code = .invalidArgument := by
  cases a with
  | none =>
    simp only [validatePluginArtifact, Option.some.injEq] at h
    rw [← h]
  | some art =>
    cases hp : art.plugin with
    | none =>
      simp only [validatePluginArtifact, hp, Option.some.injEq] at h
      rw [← h]
    | some pl =>
      cases hc : pl.configuration with
      | empty =>
        simp only [validatePluginArtifact, hp, hc, Option.some.injEq] at h
        rw [← h]
      | malformed m => simp [validatePluginArtifact, hp, hc] at h
      | yaml fs => simp [validatePluginArtifact, hp, hc] at h

/-- C9 (corrected): when validation fails, `OpenStream` terminates with the
validation status error itself — a transport-level `InvalidArgument`, not
`Internal` — and sends no messages; when validation passes but configuration
resolution or driver construction fails, or opening the byte source fails,
it terminates with a transport-level `Internal` error and sends no
messages. -/
theorem c9_amended (env : Env) (req : OpenStreamRequest) :
    (∀ e, validatePluginArtifact req.artifact = some e →
        serverOpenStream env req = ([], some e) ∧ e.code = .invalidArgument)
    ∧ (∀ a pl msg, req.artifact = some a → a.plugin = some pl →
        validatePluginArtifact req.artifact = none →
        DriverAndArtifactFromConfig env pl.configuration pl.key = .error msg →
        serverOpenStream env req = ([], some { code := .internal, message := msg }))
    ∧ (∀ d wa msg, getDriver env req.artifact = .ok (d, wa) →
        env.driverOpenStream d wa = .error msg →
        serverOpenStream env req = ([], some { code := .internal, message := msg })) := by
  refine ⟨?_, ?_, ?_⟩
  · intro e hval
    exact ⟨by simp [serverOpenStream, getDriver, hval],
      validate_code_invalidArgument _ e hval⟩
  · intro a pl msg ha hp hval herr
    rw [ha] at hval
    simp [serverOpenStream, getDriver, hval, ha, hp, herr]
  · intro d wa msg hok herr
    simp [serverOpenStream, hok, herr]

/-- Witness for the amended C9: validation failure on an artifact with no
plugin envelope yields the `InvalidArgument` status and no messages. -/
theorem c9_amended_witness :
    serverOpenStream demoEnv { artifact := some noPluginArtifact }
        = ([], some { code := Code.invalidArgument,
                      message := "plugin artifact location is required" })
    ∧ ({ code := Code.invalidArgument,
         message := "plugin artifact location is required" } : StatusError).code
        = .invalidArgument :=
  (c9_amended demoEnv { artifact := some noPluginArtifact }).1
    { code := Code.invalidArgument, message := "plugin artifact location is required" }
    (by rfl)

/-- Counterexample for C9 as stated: a validation failure (missing artifact
reference) terminates `OpenStream` with a transport-level `InvalidArgument`
status error, not the claimed `Internal`. -/
theorem c9_counterexample :
    serverOpenStream demoEnv { artifact := none }
      = ([], some { code := Code.invalidArgument, message := "artifact is required" })
    ∧ Code.invalidArgument ≠ Code.internal := ⟨rfl, by decide⟩

/-! ## Claims about strict configuration parsing -/

theorem applyS3Field_unknown (cfg : S3Bucket) (k : String) (v : YamlVal)
    (h : k ∉ knownTopLevelKeys) :
    applyS3Field cfg (k, v)
      = .error ("error unmarshaling JSON: unknown field " ++ k) := by
  simp only [knownTopLevelKeys, List.mem_cons, List.not_mem_nil, or_false,
    not_or] at h
  obtain ⟨h1, h2, h3, h4, h5, h6, h7, h8, h9, h10, h11, h12⟩ := h
  simp only [applyS3Field]
  rw [if_neg h1, if_neg h2, if_neg h3, if_neg h4, if_neg h5, if_neg h6,
    if_neg h7, if_neg h8, if_neg h9, if_neg h10, if_neg h11, if_neg h12]

theorem unmarshalFields_unknown (fields : List (String × YamlVal)) :
    ∀ cfg k v, (k, v) ∈ fields → k ∉ knownTopLevelKeys →
      ∃ msg, unmarshalFields cfg fields = .error msg := by
  induction fields with
  | nil =>
    intro cfg k v hm
    simp at hm
  | cons kv rest ih =>
    intro cfg k v hm hk
    rcases List.mem_cons.1 hm with h1 | h2
    · refine ⟨"error unmarshaling JSON: unknown field " ++ k, ?_⟩
      have ha := applyS3Field_unknown cfg k v hk
      rw [← h1]
      simp [unmarshalFields, ha]
    · cases ha : applyS3Field cfg kv with
      | error e => exact ⟨e, by simp [unmarshalFields, ha]⟩
      | ok cfg2 =>
        obtain ⟨msg, hmsg⟩ := ih cfg2 k v h2 hk
        exact ⟨msg, by simp [unmarshalFields, ha, hmsg]⟩

/-- C7 (confirmed): a configuration mapping containing any top-level field
outside the known schema fails strict parsing, whichever unknown field it
is; and the empty blob parses to the all-default configuration. -/
theorem c7_strict_parsing :
    (∀ fields k v, (k, v) ∈ fields → k ∉ knownTopLevelKeys →
        ∃ msg, parsePluginConfiguration (.yaml fields) = .error msg)
    ∧ parsePluginConfiguration .empty = .ok {} := by
  constructor
  · intro fields k v hm hk
    obtain ⟨msg, hmsg⟩ := unmarshalFields_unknown fields {} k v hm hk
    exact ⟨"failed to parse plugin configuration: " ++ msg,
      by simp [parsePluginConfiguration, hmsg]⟩
  · rfl

/-- Witness for C7 at the unknown field used by the repository's own parse
test. -/
theorem c7_strict_parsing_witness :
    ∃ msg, parsePluginConfiguration
        (.yaml [("bucket", .str "my-bucket"), ("unknownField", .str "value")])
      = .error msg :=
  c7_strict_parsing.1 [("bucket", .str "my-bucket"), ("unknownField", .str "value")]
    "unknownField" (.str "value") (by simp) (by decide)

/-! ## Claims about server startup -/

/-- C8 (confirmed): when the stale-socket removal succeeds or finds nothing
to remove, startup proceeds — the stale file is gone before the listener is
created, and the listen outcome decides the result; when removal fails for
any other reason, startup fails with that error before any listener is
created. -/
theorem c8_stale_socket (env : StartEnv) :
    ((env.remove = .removed ∨ env.remove = .notExist) →
        (∀ l, env.listen = .ok l →
          startServer env = (.ok l, [.removeSocket, .listenSocket, .registerService]))
        ∧ (∀ msg, env.listen = .error msg →
          startServer env = (.error msg, [.removeSocket, .listenSocket])))
    ∧ (∀ msg, env.remove = .failed msg →
        startServer env = (.error msg, [.removeSocket])) := by
  constructor
  · intro hr
    constructor
    · intro l hl
      rcases hr with h | h <;> simp [startServer, h, hl]
    · intro msg hl
      rcases hr with h | h <;> simp [startServer, h, hl]
  · intro msg hr
    simp [startServer, hr]

/-- Witness for C8: a pre-existing stale socket file is removed and startup
then succeeds on the fresh listener. -/
theorem c8_stale_socket_witness :
    startServer { remove := .removed, listen := .ok 3 }
      = (.ok 3, [.removeSocket, .listenSocket, .registerService]) :=
  ((c8_stale_socket { remove := .removed, listen := .ok 3 }).1 (Or.inl rfl)).1 3 rfl

end ArtifactPluginS3
